import Mathlib

/-!
Shallow embedding of `src/integration_hub.py` (class `IntegrationHub`).

The orchestrator's phase methods (`discover_services`, `assess_integration`,
`implement_integration`, `monitor_integration`) and the private helpers they
call are embedded as Lean functions that return a trace of observable effects
(log lines, bus publishes, and the entry points of `assess_integration` and
`_rollback_integration`) together with an `Except` result modelling Python's
normal return vs. raised exception.

The bodies of the private helpers `_check_compatibility`, `_generate_connector`,
`_test_integration`, `_rollback_integration`, `_gather_metrics` and
`_analyze_metrics` are explicit placeholders in the source ("Implement actual
... logic here"), and the calls to `requests.get` and `Communicator.publish`
go to external collaborators.  Each such call site is therefore a field of an
`Env` record: an arbitrary function from the call's argument to
`Except PyErr result`, so theorems quantify over every collaborator behaviour.
The concrete placeholder bodies that the source file does contain are also
defined below (`stub_check_compatibility`, `stub_generate_connector`, ...) and
used to instantiate `Env` for the claims about those placeholders.
-/

/-- Python values as far as the hub manipulates them: the hub passes strings,
numbers and string-keyed dicts around and never looks deeper.  The float
literal `0.1` of `_gather_metrics` is represented by the rational `1/10`;
no arithmetic is ever performed on it. -/
inductive Prim where
  | pstr : String → Prim
  | pnum : Rat → Prim
deriving DecidableEq, Repr

/-- A value passed as an event body or as the `integration_request` argument:
either a primitive (e.g. the integration id string that `monitor_integration`
passes to `assess_integration`) or a string-keyed dict. -/
inductive Value where
  | vstr : String → Value
  | vnum : Rat → Value
  | vdict : List (String × Prim) → Value
deriving DecidableEq, Repr

/-- A Python `Dict[str, Any]` of metrics, as returned by `_gather_metrics`. -/
abbrev Metrics := List (String × Prim)

/-- Log levels of the `logging` calls in the source. -/
inductive LogLevel where
  | info
  | warning
  | error
deriving DecidableEq, Repr

/-- A raised Python exception.  `requestException` models
`requests.exceptions.RequestException` (the class caught in `_ping_service`);
`other` models every other exception type. -/
inductive PyErr where
  | requestException : String → PyErr
  | other : String → PyErr
deriving DecidableEq, Repr

/-- The string interpolated for the exception in the `f"...: {e}"` log lines. -/
def PyErr.message : PyErr → String
  | PyErr.requestException m => m
  | PyErr.other m => m

/-- Observable effects of a phase call, in program order:
`log` is a `logging.<level>(msg)` call, `publish` a successful
`Communicator.publish` on the named exchange/routing key,
`assessCall v` marks entry into `assess_integration` with argument `v`, and
`rollbackInvoked v` marks entry into `_rollback_integration` with argument `v`. -/
inductive Effect where
  | log : LogLevel → String → Effect
  | publish : String → String → Value → Effect
  | assessCall : Value → Effect
  | rollbackInvoked : Value → Effect
deriving DecidableEq, Repr

/-- The result of running a method body: the effects it emitted, in order,
and either a normal return value or the exception that propagated out. -/
abbrev M (α : Type) := List Effect × Except PyErr α

/-- Sequencing: run `x`; if it raised, the exception propagates (effects
already emitted are kept); otherwise continue with `f`. -/
def mbind {α β : Type} (x : M α) (f : α → M β) : M β :=
  match x with
  | (tr, Except.error e) => (tr, Except.error e)
  | (tr, Except.ok a) =>
    match f a with
    | (tr2, r) => (tr ++ tr2, r)

/-- A body that just returns `a`. -/
def mpure {α : Type} (a : α) : M α := ([], Except.ok a)

/-- Run two bodies in sequence, discarding the first result. -/
def mseq {α : Type} (x : M Unit) (y : M α) : M α := mbind x fun _ => y

/-- Emit one effect. -/
def memit (eff : Effect) : M Unit := ([eff], Except.ok ())

/-- Raise an exception. -/
def mthrow {α : Type} (e : PyErr) : M α := ([], Except.error e)

/-- Lift a collaborator call that emits no effects of its own. -/
def mlift {α : Type} : Except PyErr α → M α
  | Except.ok a => ([], Except.ok a)
  | Except.error e => ([], Except.error e)

/-- Python `try: body except Exception as e: handler(e)`: effects of `body`
before the raise are kept, then the handler runs. -/
def pyTry {α : Type} (body : M α) (handler : PyErr → M α) : M α :=
  match body with
  | (tr, Except.ok a) => (tr, Except.ok a)
  | (tr, Except.error e) =>
    match handler e with
    | (tr2, r) => (tr ++ tr2, r)

/-- An HTTP response as far as the hub inspects it (`response.status_code`). -/
structure Response where
  status_code : Nat
deriving DecidableEq, Repr

/-- Behaviour of every collaborator call site of `IntegrationHub`.  Each field
is the outcome of one external or placeholder call, as a function of its
argument: `requests_get` is `requests.get(endpoint)` inside `_ping_service`;
`bus_publish` is `Communicator.publish` (from the `rabbitmq_communicator`
module, which is not part of the source tree; per the spec it either succeeds
or fails with a publish error); the remaining fields are the placeholder
bodies marked "Implement actual ... logic here" in `_check_compatibility`,
`_generate_connector`, `_test_integration`, `_rollback_integration`,
`_gather_metrics` and `_analyze_metrics`. -/
structure Env where
  requests_get : String → Except PyErr Response
  bus_publish : String → String → Value → Except PyErr Unit
  check_compat : Value → Except PyErr Bool
  generate_connector_code : Value → Except PyErr String
  run_integration_test : String → Except PyErr Bool
  rollback_logic : Value → Except PyErr Unit
  collect_metrics : String → Except PyErr Metrics
  analyze_logic : Metrics → Except PyErr Bool

/-- A call `self.communicators[ex].publish(exchange=ex, routing_key=rk, body=b)`:
on success the event is on the bus (recorded in the trace); on failure the
publish exception propagates to the caller. -/
def bus_publish_call (env : Env) (ex rk : String) (body : Value) : M Unit :=
  match env.bus_publish ex rk body with
  | Except.ok _ => ([Effect.publish ex rk body], Except.ok ())
  | Except.error e => ([], Except.error e)

/-- The uniform `except Exception as e: logging.error(f"<tag>: {e}"); raise`
handler that every method of the class wraps its body in. -/
def log_rethrow {α : Type} (f : PyErr → String) : PyErr → M α :=
  fun e =>
    mseq (memit (Effect.log LogLevel.error (f e))) (mthrow e)

/-- `IntegrationHub._ping_service` (src lines 51-59): calls
`requests.get(endpoint)` and returns the response; on
`requests.exceptions.RequestException` it logs the failure and re-raises;
any other exception from `requests.get` is not caught and propagates. -/
def ping_service (env : Env) (endpoint : String) : M Response :=
  match env.requests_get endpoint with
  | Except.ok r => mpure r
  | Except.error (PyErr.requestException m) =>
    mseq (memit (Effect.log LogLevel.error
          ("Failed to ping " ++ endpoint ++ ": " ++ m)))
      (mthrow (PyErr.requestException m))
  | Except.error (PyErr.other m) => mthrow (PyErr.other m)

/-- The `for service_name, service_endpoint in services.items(): ...` loop body
of `discover_services` (src lines 33-45), iterating in dict order. -/
def discover_loop (env : Env) : List (String × String) → M Unit
  | [] => mpure ()
  | (service_name, service_endpoint) :: rest =>
    mbind (ping_service env service_endpoint) fun response =>
      mseq
        (if response.status_code == 200 then
          mseq (memit (Effect.log LogLevel.info
                ("Service " ++ service_name ++ " is available.")))
            (bus_publish_call env "discovery" "available_services"
              (Value.vdict [("service", Prim.pstr service_name)]))
        else
          memit (Effect.log LogLevel.warning
            ("Service " ++ service_name ++ " is not available.")))
        (discover_loop env rest)

/-- `IntegrationHub.discover_services` (src lines 30-49): probes each service;
a 200 response publishes a `discovery`/`available_services` event with body
`{"service": name}`, any other status logs a warning; any exception is logged
as `Discovery failed` and re-raised. -/
def discover_services (env : Env) (services : List (String × String)) : M Unit :=
  pyTry (discover_loop env services)
    (log_rethrow fun e => "Discovery failed: " ++ e.message)

/-- `IntegrationHub._check_compatibility` (src lines 81-88): runs the
compatibility placeholder; on exception logs and re-raises. -/
def check_compatibility (env : Env) (request : Value) : M Bool :=
  pyTry (mlift (env.check_compat request))
    (log_rethrow fun e => "Compatibility check failed: " ++ e.message)

/-- `IntegrationHub.assess_integration` (src lines 61-79): checks
compatibility; if compatible publishes the request on
`assessment`/`feasible_integrations`, otherwise only logs a warning; any
exception is logged as `Assessment failed` and re-raised.  The leading
`Effect.assessCall` marks the method entry (used to observe the re-invocation
from `monitor_integration`). -/
def assess_integration (env : Env) (integration_request : Value) : M Unit :=
  mseq (memit (Effect.assessCall integration_request))
    (pyTry
      (mbind (check_compatibility env integration_request) fun compatible =>
        if compatible then
          mseq (memit (Effect.log LogLevel.info "Integration is feasible."))
            (bus_publish_call env "assessment" "feasible_integrations"
              integration_request)
        else
          memit (Effect.log LogLevel.warning
            "Integration not feasible due to compatibility issues."))
      (log_rethrow fun e => "Assessment failed: " ++ e.message))

/-- `IntegrationHub._generate_connector` (src lines 114-121). -/
def generate_connector (env : Env) (request : Value) : M String :=
  pyTry (mlift (env.generate_connector_code request))
    (log_rethrow fun e => "Connector generation failed: " ++ e.message)

/-- `IntegrationHub._test_integration` (src lines 123-130). -/
def test_integration (env : Env) (code : String) : M Bool :=
  pyTry (mlift (env.run_integration_test code))
    (log_rethrow fun e => "Integration test failed: " ++ e.message)

/-- `IntegrationHub._rollback_integration` (src lines 132-139): runs the
rollback placeholder then logs `Rolled back integration.`; on exception logs
`Rollback failed` and re-raises.  The leading `Effect.rollbackInvoked` marks
the method entry. -/
def rollback_integration (env : Env) (request : Value) : M Unit :=
  mseq (memit (Effect.rollbackInvoked request))
    (pyTry
      (mseq (mlift (env.rollback_logic request))
        (memit (Effect.log LogLevel.info "Rolled back integration.")))
      (log_rethrow fun e => "Rollback failed: " ++ e.message))

/-- `IntegrationHub.implement_integration` (src lines 90-112): generates the
connector, tests it; on a passing test publishes the request on
`implementation`/`successful_integrations`, on a failing test logs an error
and invokes `_rollback_integration`; any exception is logged as
`Implementation failed` and re-raised. -/
def implement_integration (env : Env) (integration_request : Value) : M Unit :=
  pyTry
    (mbind (generate_connector env integration_request) fun integration_code =>
      mbind (test_integration env integration_code) fun ok =>
        if ok then
          mseq (memit (Effect.log LogLevel.info
                "Integration implemented successfully."))
            (bus_publish_call env "implementation" "successful_integrations"
              integration_request)
        else
          mseq (memit (Effect.log LogLevel.error
                "Integration failed during testing."))
            (rollback_integration env integration_request))
    (log_rethrow fun e => "Implementation failed: " ++ e.message)

/-- `IntegrationHub._gather_metrics` (src lines 162-169). -/
def gather_metrics (env : Env) (integration_id : String) : M Metrics :=
  pyTry (mlift (env.collect_metrics integration_id))
    (log_rethrow fun e => "Metrics gathering failed: " ++ e.message)

/-- `IntegrationHub._analyze_metrics` (src lines 171-176): runs the analysis
placeholder; its `except` block follows the file's uniform log-and-re-raise
pattern (the placeholder body itself never raises, so that block is dead for
the concrete instantiation). -/
def analyze_metrics (env : Env) (metrics : Metrics) : M Bool :=
  pyTry (mlift (env.analyze_logic metrics))
    (log_rethrow fun e => "Metrics analysis failed: " ++ e.message)

/-- `IntegrationHub.monitor_integration` (src lines 141-160): gathers metrics;
an empty result logs a warning and returns (`if not metrics: ... return`);
otherwise analysis decides between an info log (healthy) and, on an unhealthy
verdict, a warning plus `self.assess_integration(integration_request=integration_id)`
— note the argument is the integration id string itself; any exception is
logged as `Monitoring failed` and re-raised. -/
def monitor_integration (env : Env) (integration_id : String) : M Unit :=
  pyTry
    (mbind (gather_metrics env integration_id) fun metrics =>
      if metrics.isEmpty then
        memit (Effect.log LogLevel.warning "No data available for monitoring.")
      else
        mbind (analyze_metrics env metrics) fun healthy =>
          if healthy then
            memit (Effect.log LogLevel.info "Integration is performing well.")
          else
            mseq (memit (Effect.log LogLevel.warning
                  "Integration performance issues detected."))
              (assess_integration env (Value.vstr integration_id)))
    (log_rethrow fun e => "Monitoring failed: " ++ e.message)

/-- The concrete placeholder body of `_check_compatibility` (src line 85):
`return True`. -/
def stub_check_compatibility : Value → Except PyErr Bool :=
  fun _ => Except.ok true

/-- The concrete placeholder body of `_generate_connector` (src line 118). -/
def stub_generate_connector : Value → Except PyErr String :=
  fun _ => Except.ok "# Placeholder connector code"

/-- The concrete placeholder body of `_test_integration` (src line 127):
`return True`. -/
def stub_test_integration : String → Except PyErr Bool :=
  fun _ => Except.ok true

/-- The concrete placeholder body of `_rollback_integration` (src line 136
has only a log call, no failable logic). -/
def stub_rollback : Value → Except PyErr Unit :=
  fun _ => Except.ok ()

/-- The concrete metrics dict returned by `_gather_metrics` (src line 166):
`{"status": "ok", "latency": 0.1}`. -/
def stub_metrics : Metrics :=
  [("status", Prim.pstr "ok"), ("latency", Prim.pnum (1 / 10))]

/-- The concrete placeholder body of `_gather_metrics` (src line 166). -/
def stub_gather_metrics : String → Except PyErr Metrics :=
  fun _ => Except.ok stub_metrics

/-- The concrete placeholder body of `_analyze_metrics` (src line 175):
`return True`. -/
def stub_analyze_metrics : Metrics → Except PyErr Bool :=
  fun _ => Except.ok true

/-- An `Env` whose placeholder fields are the source's concrete placeholder
bodies and whose external fields (`requests_get`, `bus_publish`) are a
succeeding test double. -/
def stubEnv : Env where
  requests_get := fun _ => Except.ok { status_code := 200 }
  bus_publish := fun _ _ _ => Except.ok ()
  check_compat := stub_check_compatibility
  generate_connector_code := stub_generate_connector
  run_integration_test := stub_test_integration
  rollback_logic := stub_rollback
  collect_metrics := stub_gather_metrics
  analyze_logic := stub_analyze_metrics

/-- True exactly on bus-publish effects. -/
def isPublish : Effect → Bool
  | Effect.publish _ _ _ => true
  | _ => false

/-! Basic unfolding lemmas for the trace monad. -/

/-- Sequencing after a successful body concatenates the traces. -/
theorem mbind_eq_ok {α β : Type} {x : M α} {tr : List Effect} {a : α}
    (h : x = (tr, Except.ok a)) (f : α → M β) :
    mbind x f = (tr ++ (f a).1, (f a).2) := by
  subst h
  simp [mbind]

/-- Sequencing after a raising body propagates the exception. -/
theorem mbind_eq_error {α β : Type} {x : M α} {tr : List Effect} {e : PyErr}
    (h : x = (tr, Except.error e)) (f : α → M β) :
    mbind x f = (tr, Except.error e) := by
  subst h
  simp [mbind]

/-- A leading effect just prepends to the trace. -/
theorem mseq_memit {α : Type} (eff : Effect) (x : M α) :
    mseq (memit eff) x = (eff :: x.1, x.2) := by
  simp [mseq, mbind, memit]

/-- A `try` block whose body returns normally is transparent. -/
theorem pyTry_eq_ok {α : Type} {body : M α} {tr : List Effect} {a : α}
    (h : body = (tr, Except.ok a)) (handler : PyErr → M α) :
    pyTry body handler = (tr, Except.ok a) := by
  subst h
  simp [pyTry]

/-- A `try` block with the uniform log-and-re-raise handler keeps the body's
effects, appends the error log, and re-raises the same exception. -/
theorem pyTry_log_rethrow_error {α : Type} {body : M α} {tr : List Effect}
    {e : PyErr} (h : body = (tr, Except.error e)) (f : PyErr → String) :
    pyTry body (log_rethrow f) =
      (tr ++ [Effect.log LogLevel.error (f e)], Except.error e) := by
  subst h
  simp [pyTry, log_rethrow, mseq, mbind, memit, mthrow]

/-- Environment in which the connector test placeholder reports failure. -/
def envTestFails : Env :=
  { stubEnv with run_integration_test := fun _ => Except.ok false }

/-- C1: `implement_integration` publishes the `implementation` /
`successful_integrations` event only when the connector build and the
connector test both succeed; `_rollback_integration` is invoked if and only
if the build succeeds and the test returns `False` (never when the build
raises); and when the test returns `False` no success event is published. -/
theorem hub_implement_success_and_rollback (env : Env) (req : Value) :
    (Effect.publish "implementation" "successful_integrations" req
        ∈ (implement_integration env req).1 →
      ∃ c, env.generate_connector_code req = Except.ok c ∧
        env.run_integration_test c = Except.ok true)
    ∧ (Effect.rollbackInvoked req ∈ (implement_integration env req).1 ↔
      ∃ c, env.generate_connector_code req = Except.ok c ∧
        env.run_integration_test c = Except.ok false)
    ∧ (∀ c, env.generate_connector_code req = Except.ok c →
        env.run_integration_test c = Except.ok false →
        Effect.publish "implementation" "successful_integrations" req
          ∉ (implement_integration env req).1) := by
  rcases hgen : env.generate_connector_code req with e | c
  · simp [implement_integration, generate_connector, test_integration,
      rollback_integration, bus_publish_call, log_rethrow, pyTry, mbind,
      mseq, memit, mthrow, mlift, mpure, hgen]
  · rcases htest : env.run_integration_test c with e | b
    · simp [implement_integration, generate_connector, test_integration,
        rollback_integration, bus_publish_call, log_rethrow, pyTry, mbind,
        mseq, memit, mthrow, mlift, mpure, hgen, htest]
    · cases b
      · rcases hrb : env.rollback_logic req with e | u
        · simp [implement_integration, generate_connector, test_integration,
            rollback_integration, bus_publish_call, log_rethrow, pyTry, mbind,
            mseq, memit, mthrow, mlift, mpure, hgen, htest, hrb]
        · simp [implement_integration, generate_connector, test_integration,
            rollback_integration, bus_publish_call, log_rethrow, pyTry, mbind,
            mseq, memit, mthrow, mlift, mpure, hgen, htest, hrb]
      · rcases hpub : env.bus_publish "implementation" "successful_integrations"
            req with e | u
        · simp [implement_integration, generate_connector, test_integration,
            rollback_integration, bus_publish_call, log_rethrow, pyTry, mbind,
            mseq, memit, mthrow, mlift, mpure, hgen, htest, hpub]
        · simp [implement_integration, generate_connector, test_integration,
            rollback_integration, bus_publish_call, log_rethrow, pyTry, mbind,
            mseq, memit, mthrow, mlift, mpure, hgen, htest, hpub]

/-- C1 witness: with the source's placeholder build and a failing test,
rollback is invoked and no success event is published. -/
theorem hub_implement_success_and_rollback_witness :
    Effect.rollbackInvoked (Value.vstr "r1")
        ∈ (implement_integration envTestFails (Value.vstr "r1")).1
    ∧ Effect.publish "implementation" "successful_integrations" (Value.vstr "r1")
        ∉ (implement_integration envTestFails (Value.vstr "r1")).1 :=
  ⟨(hub_implement_success_and_rollback envTestFails (Value.vstr "r1")).2.1.mpr
      ⟨"# Placeholder connector code", rfl, rfl⟩,
    (hub_implement_success_and_rollback envTestFails (Value.vstr "r1")).2.2
      "# Placeholder connector code" rfl rfl⟩

/-- Environment in which every probe raises a transport-level
`RequestException` ("timeout"). -/
def envPingFails : Env :=
  { stubEnv with
    requests_get := fun _ => Except.error (PyErr.requestException "timeout") }

/-- C3 counterexample: a probe timeout does NOT map to a quiet
"unreachable" outcome — `discover_services` raises the exception to its
caller. -/
theorem ping_timeout_raises_counterexample :
    (discover_services envPingFails [("svc-a", "http://a.test")]).2 =
      Except.error (PyErr.requestException "timeout") := by
  rfl

/-- C3 (amended): a timeout or transport error in the probe is logged
(`Failed to ping ...`) and re-raised by `_ping_service`, and it propagates
out of `discover_services` (after a `Discovery failed` log) to the caller:
an exception, not a `reachable=false` outcome. -/
theorem ping_error_logged_and_reraised (env : Env) (endpoint m : String)
    (h : env.requests_get endpoint = Except.error (PyErr.requestException m)) :
    ping_service env endpoint =
      ([Effect.log LogLevel.error ("Failed to ping " ++ endpoint ++ ": " ++ m)],
        Except.error (PyErr.requestException m))
    ∧ ∀ (name : String) (rest : List (String × String)),
        discover_services env ((name, endpoint) :: rest) =
          ([Effect.log LogLevel.error
              ("Failed to ping " ++ endpoint ++ ": " ++ m),
            Effect.log LogLevel.error ("Discovery failed: " ++ m)],
            Except.error (PyErr.requestException m)) := by
  constructor
  · simp [ping_service, h, mseq, mbind, memit, mthrow]
  · intro name rest
    simp [discover_services, discover_loop, ping_service, h, log_rethrow,
      pyTry, mbind, mseq, memit, mthrow, PyErr.message]

/-- C3 witness: the amended behaviour at a concrete environment. -/
theorem ping_error_logged_and_reraised_witness :
    discover_services envPingFails [("svc-a", "http://a.test")] =
      ([Effect.log LogLevel.error
          ("Failed to ping " ++ "http://a.test" ++ ": " ++ "timeout"),
        Effect.log LogLevel.error ("Discovery failed: " ++ "timeout")],
        Except.error (PyErr.requestException "timeout")) :=
  (ping_error_logged_and_reraised envPingFails "http://a.test" "timeout"
      rfl).2 "svc-a" []

/-- Environment in which the build succeeds, the connector test fails, and
the rollback placeholder itself raises. -/
def envRollbackFails : Env :=
  { envTestFails with
    rollback_logic := fun _ => Except.error (PyErr.other "rollback boom") }

/-- C4 counterexample: an error raised inside the rollback operation IS
re-raised out of `_rollback_integration`, and it is fatal to the implement
phase (the phase result is the rollback error, masking the test failure). -/
theorem rollback_error_fatal_counterexample :
    (rollback_integration envRollbackFails (Value.vstr "r1")).2 =
      Except.error (PyErr.other "rollback boom")
    ∧ (implement_integration envRollbackFails (Value.vstr "r1")).2 =
      Except.error (PyErr.other "rollback boom") :=
  ⟨rfl, rfl⟩

/-- C4 (amended): an error raised inside the rollback operation is logged
(`Rollback failed: ...`) and re-raised out of `_rollback_integration`; when
the rollback was triggered by a failing test, the error propagates out of
`implement_integration`, so a failed rollback does abort the implement phase
with the rollback error. -/
theorem rollback_error_logged_and_reraised (env : Env) (req : Value)
    (e : PyErr) (h : env.rollback_logic req = Except.error e) :
    rollback_integration env req =
      ([Effect.rollbackInvoked req,
        Effect.log LogLevel.error ("Rollback failed: " ++ e.message)],
        Except.error e)
    ∧ ∀ c, env.generate_connector_code req = Except.ok c →
        env.run_integration_test c = Except.ok false →
        (implement_integration env req).2 = Except.error e := by
  constructor
  · simp [rollback_integration, h, log_rethrow, pyTry, mbind, mseq, memit,
      mthrow, mlift]
  · intro c hgen htest
    simp [implement_integration, generate_connector, test_integration,
      rollback_integration, bus_publish_call, log_rethrow, pyTry, mbind,
      mseq, memit, mthrow, mlift, hgen, htest, h]

/-- C4 witness: the amended behaviour at a concrete environment. -/
theorem rollback_error_logged_and_reraised_witness :
    (implement_integration envRollbackFails (Value.vstr "r1")).2 =
      Except.error (PyErr.other "rollback boom") :=
  (rollback_error_logged_and_reraised envRollbackFails (Value.vstr "r1")
      (PyErr.other "rollback boom") rfl).2
    "# Placeholder connector code" rfl rfl

/-- Environment in which metrics gathering returns a degraded sample and the
analyzer reports unhealthy. -/
def envDegraded : Env :=
  { stubEnv with
    collect_metrics := fun _ => Except.ok [("status", Prim.pstr "degraded")],
    analyze_logic := fun _ => Except.ok false }

/-- A sample original `IntegrationRequest` dict whose id is "int-1". -/
def origRequest : Value :=
  Value.vdict [("id", Prim.pstr "int-1"), ("source", Prim.pstr "svc-a"),
    ("target", Prim.pstr "svc-b")]

/-- C2 counterexample: on an unhealthy verdict for integration "int-1",
`monitor_integration` re-invokes `assess_integration` with the bare id string
`"int-1"`, not with the original request dict of that integration. -/
theorem monitor_reassess_uses_id_counterexample :
    Effect.assessCall (Value.vstr "int-1")
        ∈ (monitor_integration envDegraded "int-1").1
    ∧ Effect.assessCall origRequest
        ∉ (monitor_integration envDegraded "int-1").1 := by
  decide

/-- C2 (amended): whenever metrics gathering returns a non-empty sample that
the analyzer reports unhealthy, `monitor_integration` re-invokes
`assess_integration`, but the argument it passes is the integration id
string itself (`assess_integration(integration_request=integration_id)`),
and that is the only assess re-invocation — the original `IntegrationRequest`
is not available to `monitor_integration` and is not passed. -/
theorem monitor_unhealthy_passes_id_string (env : Env) (id : String)
    (m : Metrics) (hg : env.collect_metrics id = Except.ok m) (hne : m ≠ [])
    (ha : env.analyze_logic m = Except.ok false) :
    Effect.assessCall (Value.vstr id) ∈ (monitor_integration env id).1
    ∧ ∀ v, Effect.assessCall v ∈ (monitor_integration env id).1 →
        v = Value.vstr id := by
  obtain ⟨hd, tl, rfl⟩ : ∃ hd tl, m = hd :: tl := by
    cases m with
    | nil => exact absurd rfl hne
    | cons hd tl => exact ⟨hd, tl, rfl⟩
  rcases hc : env.check_compat (Value.vstr id) with e | b
  · simp [monitor_integration, gather_metrics, analyze_metrics,
      assess_integration, check_compatibility, bus_publish_call, log_rethrow,
      pyTry, mbind, mseq, memit, mthrow, mlift, hg, ha, hc]
  · cases b
    · simp [monitor_integration, gather_metrics, analyze_metrics,
        assess_integration, check_compatibility, bus_publish_call, log_rethrow,
        pyTry, mbind, mseq, memit, mthrow, mlift, hg, ha, hc]
    · rcases hp : env.bus_publish "assessment" "feasible_integrations"
          (Value.vstr id) with e | u
      · simp [monitor_integration, gather_metrics, analyze_metrics,
          assess_integration, check_compatibility, bus_publish_call,
          log_rethrow, pyTry, mbind, mseq, memit, mthrow, mlift, hg, ha, hc,
          hp]
      · simp [monitor_integration, gather_metrics, analyze_metrics,
          assess_integration, check_compatibility, bus_publish_call,
          log_rethrow, pyTry, mbind, mseq, memit, mthrow, mlift, hg, ha, hc,
          hp]

/-- C2 witness: the amended behaviour at a concrete environment. -/
theorem monitor_unhealthy_passes_id_string_witness :
    Effect.assessCall (Value.vstr "int-1")
        ∈ (monitor_integration envDegraded "int-1").1 :=
  (monitor_unhealthy_passes_id_string envDegraded "int-1"
      [("status", Prim.pstr "degraded")] rfl (by decide) rfl).1

/-- Environment in which the compatibility placeholder reports `False`. -/
def envIncompatible : Env :=
  { stubEnv with check_compat := fun _ => Except.ok false }

/-- C6: when the compatibility check returns `False`, `assess_integration`
publishes nothing at all (it only logs a warning and returns); when the
check returns `True` (and the bus accepts the publish), it publishes exactly
one event, on the `assessment` exchange with routing key
`feasible_integrations` and the request as body. -/
theorem assess_events_by_compatibility (env : Env) (req : Value) :
    (env.check_compat req = Except.ok false →
      (assess_integration env req).1.filter isPublish = []
      ∧ (assess_integration env req).2 = Except.ok ())
    ∧ (env.check_compat req = Except.ok true →
      env.bus_publish "assessment" "feasible_integrations" req =
        Except.ok () →
      (assess_integration env req).1.filter isPublish =
        [Effect.publish "assessment" "feasible_integrations" req]
      ∧ (assess_integration env req).2 = Except.ok ()) := by
  constructor
  · intro hc
    simp [assess_integration, check_compatibility, bus_publish_call,
      log_rethrow, pyTry, mbind, mseq, memit, mthrow, mlift, hc, isPublish]
  · intro hc hp
    simp [assess_integration, check_compatibility, bus_publish_call,
      log_rethrow, pyTry, mbind, mseq, memit, mthrow, mlift, hc, hp,
      isPublish]

/-- C6 witness: both branches at concrete environments. -/
theorem assess_events_by_compatibility_witness :
    ((assess_integration envIncompatible origRequest).1.filter isPublish = []
      ∧ (assess_integration envIncompatible origRequest).2 = Except.ok ())
    ∧ (assess_integration stubEnv origRequest).1.filter isPublish =
        [Effect.publish "assessment" "feasible_integrations" origRequest] :=
  ⟨(assess_events_by_compatibility envIncompatible origRequest).1 rfl,
    ((assess_events_by_compatibility stubEnv origRequest).2 rfl rfl).1⟩

/-- C7: when metrics gathering returns the empty dict, `monitor_integration`
only logs a warning and returns normally: it raises nothing, re-invokes no
assess, and its outcome does not depend on the analyzer at all. -/
theorem monitor_no_metrics_noop (env : Env) (id : String)
    (h : env.collect_metrics id = Except.ok []) :
    monitor_integration env id =
      ([Effect.log LogLevel.warning "No data available for monitoring."],
        Except.ok ())
    ∧ (∀ v, Effect.assessCall v ∉ (monitor_integration env id).1)
    ∧ ∀ f, monitor_integration { env with analyze_logic := f } id =
        monitor_integration env id := by
  have key : ∀ (env2 : Env), env2.collect_metrics id = Except.ok [] →
      monitor_integration env2 id =
        ([Effect.log LogLevel.warning "No data available for monitoring."],
          Except.ok ()) := by
    intro env2 h2
    simp [monitor_integration, gather_metrics, log_rethrow, pyTry, mbind,
      mseq, memit, mthrow, mlift, h2]
  refine ⟨key env h, ?_, ?_⟩
  · intro v
    rw [key env h]
    simp
  · intro f
    rw [key env h, key { env with analyze_logic := f } h]

/-- C7 witness: the no-metrics self-loop at a concrete environment. -/
theorem monitor_no_metrics_noop_witness :
    monitor_integration
        { stubEnv with collect_metrics := fun _ => Except.ok [] } "int-1" =
      ([Effect.log LogLevel.warning "No data available for monitoring."],
        Except.ok ()) :=
  (monitor_no_metrics_noop
      { stubEnv with collect_metrics := fun _ => Except.ok [] } "int-1"
      rfl).1

/-- C9: the source's placeholder `_check_compatibility` body returns `True`
for every request, so whenever the bus accepts the publish,
`assess_integration` always takes the feasible branch: it publishes the
`assessment`/`feasible_integrations` event and the infeasible warning is
unreachable. -/
theorem stub_compat_always_feasible (env : Env) (req : Value)
    (hc : env.check_compat = stub_check_compatibility)
    (hp : env.bus_publish "assessment" "feasible_integrations" req =
      Except.ok ()) :
    (∀ r, check_compatibility env r = ([], Except.ok true))
    ∧ assess_integration env req =
        ([Effect.assessCall req,
          Effect.log LogLevel.info "Integration is feasible.",
          Effect.publish "assessment" "feasible_integrations" req],
          Except.ok ())
    ∧ Effect.log LogLevel.warning
        "Integration not feasible due to compatibility issues."
        ∉ (assess_integration env req).1 := by
  have hkey : assess_integration env req =
      ([Effect.assessCall req,
        Effect.log LogLevel.info "Integration is feasible.",
        Effect.publish "assessment" "feasible_integrations" req],
        Except.ok ()) := by
    simp [assess_integration, check_compatibility, bus_publish_call,
      log_rethrow, pyTry, mbind, mseq, memit, mthrow, mlift, hc,
      stub_check_compatibility, hp]
  refine ⟨?_, hkey, ?_⟩
  · intro r
    simp [check_compatibility, log_rethrow, pyTry, mlift, hc,
      stub_check_compatibility]
  · rw [hkey]
    simp

/-- C9 witness: the feasible branch at a concrete environment. -/
theorem stub_compat_always_feasible_witness :
    assess_integration stubEnv origRequest =
      ([Effect.assessCall origRequest,
        Effect.log LogLevel.info "Integration is feasible.",
        Effect.publish "assessment" "feasible_integrations" origRequest],
        Except.ok ()) :=
  (stub_compat_always_feasible stubEnv origRequest rfl rfl).2.1

/-- C10: the source's placeholder `_gather_metrics` returns the non-empty
dict `{"status": "ok", "latency": 0.1}` for every id and the placeholder
`_analyze_metrics` returns `True` for every metrics value, so
`monitor_integration` always takes the healthy branch: it logs one info line
and never re-invokes `assess_integration`. -/
theorem stub_metrics_healthy_no_reassess (env : Env) (id : String)
    (hg : env.collect_metrics = stub_gather_metrics)
    (ha : env.analyze_logic = stub_analyze_metrics) :
    gather_metrics env id = ([], Except.ok stub_metrics)
    ∧ stub_metrics ≠ []
    ∧ analyze_metrics env stub_metrics = ([], Except.ok true)
    ∧ monitor_integration env id =
        ([Effect.log LogLevel.info "Integration is performing well."],
          Except.ok ())
    ∧ ∀ v, Effect.assessCall v ∉ (monitor_integration env id).1 := by
  have hmon : monitor_integration env id =
      ([Effect.log LogLevel.info "Integration is performing well."],
        Except.ok ()) := by
    simp [monitor_integration, gather_metrics, analyze_metrics, log_rethrow,
      pyTry, mbind, mseq, memit, mthrow, mlift, hg, ha, stub_gather_metrics,
      stub_analyze_metrics, stub_metrics]
  refine ⟨?_, by decide, ?_, hmon, ?_⟩
  · simp [gather_metrics, log_rethrow, pyTry, mlift, hg, stub_gather_metrics]
  · simp [analyze_metrics, log_rethrow, pyTry, mlift, ha,
      stub_analyze_metrics]
  · intro v
    rw [hmon]
    simp

/-- C10 witness: the healthy self-loop at a concrete environment. -/
theorem stub_metrics_healthy_no_reassess_witness :
    monitor_integration stubEnv "int-1" =
      ([Effect.log LogLevel.info "Integration is performing well."],
        Except.ok ()) :=
  (stub_metrics_healthy_no_reassess stubEnv "int-1" rfl rfl).2.2.2.1

/-- A body wrapped in the uniform log-and-re-raise handler: whenever the
wrapped call raises, the emitted trace is the body's effects followed by the
error log, and the same exception propagates. -/
theorem pyTry_log_rethrow_spec {α : Type} (body : M α) (f : PyErr → String)
    (e : PyErr) (h : (pyTry body (log_rethrow f)).2 = Except.error e) :
    pyTry body (log_rethrow f) =
      (body.1 ++ [Effect.log LogLevel.error (f e)], Except.error e) := by
  rcases hb : body with ⟨tr, r⟩
  rw [hb] at h
  cases r with
  | ok a =>
    have heq := pyTry_eq_ok (rfl : ((tr, Except.ok a) : M α) = _) (log_rethrow f)
    rw [heq] at h
    simp at h
  | error e2 =>
    have heq :=
      pyTry_log_rethrow_error (rfl : ((tr, Except.error e2) : M α) = _) f
    rw [heq] at h
    simp only [Except.error.injEq] at h
    subst h
    rw [heq]

/-- Composition of a leading effect with a log-and-re-raise `try` block, in
the exceptional case. -/
theorem mseq_memit_pyTry_log_rethrow_spec (eff : Effect) (body : M Unit)
    (f : PyErr → String) (e : PyErr)
    (h : (mseq (memit eff) (pyTry body (log_rethrow f))).2 = Except.error e) :
    mseq (memit eff) (pyTry body (log_rethrow f)) =
      ((eff :: body.1) ++ [Effect.log LogLevel.error (f e)],
        Except.error e) := by
  simp only [mseq_memit] at h
  rw [mseq_memit, pyTry_log_rethrow_spec body f e h]
  simp

/-- Environment in which the connector-generation placeholder raises. -/
def envBuildFails : Env :=
  { stubEnv with
    generate_connector_code := fun _ => Except.error (PyErr.other "boom") }

/-- C8: in every phase, a collaborator exception is logged with the phase's
failure message and re-raised unchanged to the phase's caller — the first
four conjuncts say any exceptional phase outcome ends in the phase's error
log and re-raises the same exception (nothing is swallowed, nothing retried:
the phase aborts with that error); the remaining conjuncts say specific
collaborator failures (compatibility check, connector build, metrics
gathering, service probe) do surface as the phase's outcome. -/
theorem phase_errors_logged_and_reraised (env : Env)
    (services : List (String × String)) (req : Value) (id : String)
    (e : PyErr) :
    ((discover_services env services).2 = Except.error e →
      ∃ tr, discover_services env services =
        (tr ++ [Effect.log LogLevel.error ("Discovery failed: " ++ e.message)],
          Except.error e))
    ∧ ((assess_integration env req).2 = Except.error e →
      ∃ tr, assess_integration env req =
        (tr ++ [Effect.log LogLevel.error
            ("Assessment failed: " ++ e.message)], Except.error e))
    ∧ ((implement_integration env req).2 = Except.error e →
      ∃ tr, implement_integration env req =
        (tr ++ [Effect.log LogLevel.error
            ("Implementation failed: " ++ e.message)], Except.error e))
    ∧ ((monitor_integration env id).2 = Except.error e →
      ∃ tr, monitor_integration env id =
        (tr ++ [Effect.log LogLevel.error
            ("Monitoring failed: " ++ e.message)], Except.error e))
    ∧ (env.check_compat req = Except.error e →
      (assess_integration env req).2 = Except.error e)
    ∧ (env.generate_connector_code req = Except.error e →
      (implement_integration env req).2 = Except.error e)
    ∧ (env.collect_metrics id = Except.error e →
      (monitor_integration env id).2 = Except.error e)
    ∧ (∀ name endpoint rest, services = (name, endpoint) :: rest →
      env.requests_get endpoint = Except.error e →
      (discover_services env services).2 = Except.error e) := by
  refine ⟨?_, ?_, ?_, ?_, ?_, ?_, ?_, ?_⟩
  · intro h
    simp only [discover_services] at h ⊢
    exact ⟨_, pyTry_log_rethrow_spec _ _ e h⟩
  · intro h
    simp only [assess_integration] at h ⊢
    exact ⟨_, mseq_memit_pyTry_log_rethrow_spec _ _ _ e h⟩
  · intro h
    simp only [implement_integration] at h ⊢
    exact ⟨_, pyTry_log_rethrow_spec _ _ e h⟩
  · intro h
    simp only [monitor_integration] at h ⊢
    exact ⟨_, pyTry_log_rethrow_spec _ _ e h⟩
  · intro h
    simp [assess_integration, check_compatibility, bus_publish_call,
      log_rethrow, pyTry, mbind, mseq, memit, mthrow, mlift, h]
  · intro h
    simp [implement_integration, generate_connector, log_rethrow, pyTry,
      mbind, mseq, memit, mthrow, mlift, h]
  · intro h
    simp [monitor_integration, gather_metrics, log_rethrow, pyTry, mbind,
      mseq, memit, mthrow, mlift, h]
  · intro name endpoint rest hs h
    subst hs
    cases e with
    | requestException m =>
      simp [discover_services, discover_loop, ping_service, log_rethrow,
        pyTry, mbind, mseq, memit, mthrow, mpure, h]
    | other m =>
      simp [discover_services, discover_loop, ping_service, log_rethrow,
        pyTry, mbind, mseq, memit, mthrow, mpure, h]

/-- C8 witness: a build error surfaces as the implement phase's outcome, and
a probe error as the discover phase's outcome, at concrete environments. -/
theorem phase_errors_logged_and_reraised_witness :
    (implement_integration envBuildFails origRequest).2 =
      Except.error (PyErr.other "boom")
    ∧ (discover_services envPingFails [("svc-a", "http://a.test")]).2 =
      Except.error (PyErr.requestException "timeout") :=
  ⟨(phase_errors_logged_and_reraised envBuildFails [] origRequest "int-1"
      (PyErr.other "boom")).2.2.2.2.2.1 rfl,
    (phase_errors_logged_and_reraised envPingFails
        [("svc-a", "http://a.test")] origRequest "int-1"
        (PyErr.requestException "timeout")).2.2.2.2.2.2.2
      "svc-a" "http://a.test" [] rfl rfl⟩

/-- The discovery event published for a service name: exchange `discovery`,
routing key `available_services`, body `{"service": name}`. -/
def disc_event (name : String) : Effect :=
  Effect.publish "discovery" "available_services"
    (Value.vdict [("service", Prim.pstr name)])

/-- Number of discovery events for `name` in a trace. -/
def count_disc (name : String) : List Effect → Nat
  | [] => 0
  | eff :: rest =>
    (if eff = disc_event name then 1 else 0) + count_disc name rest

/-- Whether the probe of service `p` returns a response with status 200. -/
def probe_status200 (env : Env) (p : String × String) : Bool :=
  match env.requests_get p.2 with
  | Except.ok r => r.status_code == 200
  | Except.error _ => false

/-- The effects one iteration of the discover loop contributes for one
service, when no exception interrupts the loop. -/
def discover_segment (env : Env) (p : String × String) : List Effect :=
  match env.requests_get p.2 with
  | Except.ok r =>
    if r.status_code == 200 then
      [Effect.log LogLevel.info ("Service " ++ p.1 ++ " is available."),
        disc_event p.1]
    else
      [Effect.log LogLevel.warning ("Service " ++ p.1 ++ " is not available.")]
  | Except.error _ => []

/-- Concatenation of the per-service segments, in dict order. -/
def segments (env : Env) : List (String × String) → List Effect
  | [] => []
  | p :: rest => discover_segment env p ++ segments env rest

/-- `count_disc` distributes over concatenation. -/
theorem count_disc_append (name : String) (l1 l2 : List Effect) :
    count_disc name (l1 ++ l2) = count_disc name l1 + count_disc name l2 := by
  induction l1 with
  | nil => simp [count_disc]
  | cons eff rest ih => simp [count_disc, ih]; omega

/-- When every probe returns a response and the bus accepts every discovery
publish, the discover loop runs to completion and its trace is exactly the
concatenation of the per-service segments. -/
theorem discover_loop_eq_segments (env : Env) :
    ∀ services : List (String × String),
    (∀ p ∈ services, ∃ r, env.requests_get p.2 = Except.ok r) →
    (∀ b, env.bus_publish "discovery" "available_services" b =
      Except.ok ()) →
    discover_loop env services = (segments env services, Except.ok ()) := by
  intro services
  induction services with
  | nil =>
    intro _ _
    simp [discover_loop, segments, mpure]
  | cons p rest ih =>
    intro hping hpub
    obtain ⟨r, hr⟩ := hping p (by simp)
    have hrest := ih (fun q hq => hping q (by simp [hq])) hpub
    obtain ⟨name, ep⟩ := p
    cases h200 : (r.status_code == 200) with
    | false =>
      simp [discover_loop, ping_service, hr, mpure, mbind, mseq, memit,
        segments, discover_segment, hrest, h200]
    | true =>
      simp [discover_loop, ping_service, hr, mpure, mbind, mseq, memit,
        bus_publish_call, hpub, segments, discover_segment, disc_event,
        hrest, h200]

/-- A segment for a service holds exactly one discovery event for its own
name when its probe returns 200, and none otherwise. -/
theorem count_disc_segment_self (env : Env) (name ep : String) :
    count_disc name (discover_segment env (name, ep)) =
      if probe_status200 env (name, ep) = true then 1 else 0 := by
  rcases hr : env.requests_get (name, ep).2 with e | r
  · simp [discover_segment, probe_status200, hr, count_disc]
  · cases h200 : (r.status_code == 200) with
    | false =>
      simp [discover_segment, probe_status200, hr, h200, count_disc,
        disc_event]
    | true =>
      simp [discover_segment, probe_status200, hr, h200, count_disc,
        disc_event]

/-- A segment for a service holds no discovery event for a different name. -/
theorem count_disc_segment_ne (env : Env) (p : String × String)
    (name : String) (h : p.1 ≠ name) :
    count_disc name (discover_segment env p) = 0 := by
  rcases hr : env.requests_get p.2 with e | r
  · simp [discover_segment, hr, count_disc]
  · cases h200 : (r.status_code == 200) with
    | false => simp [discover_segment, hr, h200, count_disc, disc_event]
    | true => simp [discover_segment, hr, h200, count_disc, disc_event, h]

/-- No segment of services with other names holds a discovery event for
`name`. -/
theorem count_disc_segments_zero (env : Env) (name : String) :
    ∀ ss : List (String × String), name ∉ ss.map Prod.fst →
    count_disc name (segments env ss) = 0 := by
  intro ss
  induction ss with
  | nil => intro _; simp [segments, count_disc]
  | cons q rest ih =>
    intro hnot
    simp only [List.map_cons, List.mem_cons, not_or] at hnot
    rw [segments, count_disc_append,
      count_disc_segment_ne env q name (fun hq => hnot.1 hq.symm),
      ih hnot.2]

/-- With no duplicate service names, the segment trace holds exactly one
discovery event for a 200-probed service and none for a non-200 one. -/
theorem count_disc_segments (env : Env) :
    ∀ (ss : List (String × String)) (name ep : String),
    (ss.map Prod.fst).Nodup → (name, ep) ∈ ss →
    count_disc name (segments env ss) =
      if probe_status200 env (name, ep) = true then 1 else 0 := by
  intro ss
  induction ss with
  | nil => intro name ep _ hmem; cases hmem
  | cons q rest ih =>
    intro name ep hnd hmem
    simp only [List.map_cons, List.nodup_cons] at hnd
    rcases List.mem_cons.mp hmem with heq | hmem2
    · subst heq
      rw [segments, count_disc_append, count_disc_segment_self,
        count_disc_segments_zero env name rest hnd.1]
      omega
    · have hne : q.1 ≠ name := by
        intro hq
        exact hnd.1 (hq ▸ List.mem_map.mpr ⟨(name, ep), hmem2, rfl⟩)
      rw [segments, count_disc_append, count_disc_segment_ne env q name hne,
        ih name ep hnd.2 hmem2]
      omega

/-- A non-200 probed service contributes its warning log to the segment
trace. -/
theorem warning_mem_segments (env : Env) :
    ∀ (ss : List (String × String)) (name ep : String), (name, ep) ∈ ss →
    (∃ r, env.requests_get ep = Except.ok r) →
    probe_status200 env (name, ep) = false →
    Effect.log LogLevel.warning ("Service " ++ name ++ " is not available.")
      ∈ segments env ss := by
  intro ss
  induction ss with
  | nil => intro name ep hmem; cases hmem
  | cons q rest ih =>
    intro name ep hmem hok hfail
    rcases List.mem_cons.mp hmem with heq | hmem2
    · subst heq
      obtain ⟨r, hr⟩ := hok
      have hfail2 : (r.status_code == 200) = false := by
        rw [probe_status200] at hfail
        rw [hr] at hfail
        exact hfail
      rw [segments]
      refine List.mem_append_left _ ?_
      simp [discover_segment, hr, hfail2]
    · exact List.mem_append_right _ (ih name ep hmem2 hok hfail)

/-- Environment whose probe answers 200 for `http://a.test` and 404 for any
other endpoint. -/
def envMixedProbes : Env :=
  { stubEnv with
    requests_get := fun ep =>
      if ep = "http://a.test" then Except.ok { status_code := 200 }
      else Except.ok { status_code := 404 } }

/-- C5: when every probe returns a response, the bus accepts discovery
publishes, and service names are unique (a Python dict), each service whose
probe returns 200 gets exactly one `discovery`/`available_services` event
with body `{"service": name}`, and each service whose probe returns a
non-200 status gets no discovery event and a warning log. -/
theorem discover_publishes_exactly_reachable (env : Env)
    (services : List (String × String))
    (hping : ∀ p ∈ services, ∃ r, env.requests_get p.2 = Except.ok r)
    (hpub : ∀ b, env.bus_publish "discovery" "available_services" b =
      Except.ok ())
    (hnodup : (services.map Prod.fst).Nodup) :
    ∀ name ep, (name, ep) ∈ services →
      (probe_status200 env (name, ep) = true →
        count_disc name (discover_services env services).1 = 1)
      ∧ (probe_status200 env (name, ep) = false →
        count_disc name (discover_services env services).1 = 0
        ∧ Effect.log LogLevel.warning
            ("Service " ++ name ++ " is not available.")
            ∈ (discover_services env services).1) := by
  intro name ep hmem
  have hloop := discover_loop_eq_segments env services hping hpub
  have hds : discover_services env services =
      (segments env services, Except.ok ()) := by
    rw [discover_services, pyTry_eq_ok hloop]
  rw [hds]
  refine ⟨fun h200 => ?_, fun h200 => ⟨?_, ?_⟩⟩
  · rw [count_disc_segments env services name ep hnodup hmem, h200]
    rfl
  · rw [count_disc_segments env services name ep hnodup hmem, h200]
    rfl
  · exact warning_mem_segments env services name ep hmem
      (by simpa using hping (name, ep) hmem) h200

/-- C5 witness: one reachable and one unreachable service at a concrete
environment. -/
theorem discover_publishes_exactly_reachable_witness :
    count_disc "svc-a" (discover_services envMixedProbes
      [("svc-a", "http://a.test"), ("svc-b", "http://b.test")]).1 = 1
    ∧ count_disc "svc-b" (discover_services envMixedProbes
      [("svc-a", "http://a.test"), ("svc-b", "http://b.test")]).1 = 0 := by
  have h := discover_publishes_exactly_reachable envMixedProbes
    [("svc-a", "http://a.test"), ("svc-b", "http://b.test")]
    (by
      intro p hp
      rcases List.mem_cons.mp hp with rfl | hp2
      · exact ⟨{ status_code := 200 }, rfl⟩
      · rcases List.mem_cons.mp hp2 with rfl | hp3
        · exact ⟨{ status_code := 404 }, rfl⟩
        · cases hp3)
    (fun b => rfl)
    (by decide)
  exact ⟨(h "svc-a" "http://a.test" (by decide)).1 rfl,
    ((h "svc-b" "http://b.test" (by decide)).2 rfl).1⟩
